import Mathlib

/-!
Shallow embedding of the HQLint diagnostic engine
(crates/hql-ls/src/linter.rs) together with proofs about its rule passes.

Conventions of the embedding:
* Rust `u32`/`u64`/`usize` coordinates are modelled as `Nat`; the statement
  scanner's `i32 paren_balance` and the parenthesis `balance` are `Int`,
  matching the signed Rust counters.
* Rust `String`/`&str` values are Lean `String`s; line-level byte work is
  done on `List Char` with explicit UTF-8 byte sizes (`Char.utf8Size`).
* Rust struct fields named `end` are called `stop` (`end` is a Lean keyword).
* `str::to_uppercase` is modelled by `rustToUppercase` (ASCII map).
* A Rust panic (the byte-slice in `check_missing_comma`) is modelled by
  `Option`: `none` is a panic, `some ds` a normal return of diagnostics.
-/

namespace HQLint

/-- Zero-based position in the diagnostic output coordinate system
(models `tower_lsp::lsp_types::Position`). -/
structure Position where
  line : Nat
  character : Nat
deriving DecidableEq, Repr

/-- Half-open region between two positions (models `Range`; the source field
named `end` is called `stop` here). -/
structure Range where
  start : Position
  stop : Position
deriving DecidableEq, Repr

/-- `Range::default()`: both positions zero. -/
def Range.zero : Range := ⟨⟨0, 0⟩, ⟨0, 0⟩⟩

/-- Models `tower_lsp::lsp_types::DiagnosticSeverity`. -/
inductive DiagnosticSeverity where
  | ERROR
  | WARNING
  | INFORMATION
  | HINT
deriving DecidableEq, Repr

/-- Models the subset of `tower_lsp::lsp_types::Diagnostic` fields the linter
sets; the remaining fields always keep their `Default` value. -/
structure Diagnostic where
  range : Range
  severity : Option DiagnosticSeverity
  code : Option String
  source : Option String
  message : String
deriving DecidableEq, Repr

/-- One-based source location as reported by the external tokenizer
(models `sqlparser::tokenizer::Location`). -/
structure Location where
  line : Nat
  column : Nat
deriving DecidableEq, Repr

/-- A token's source span (models `sqlparser::tokenizer::Span`; the field
named `end` in the source is `stop` here). -/
structure Span where
  start : Location
  stop : Location
deriving DecidableEq, Repr

/-- Models `sqlparser::tokenizer::Word`: the word text and its quote
character, `none` for a bare (unquoted) word. -/
structure Word where
  value : String
  quote_style : Option Char
deriving DecidableEq, Repr

/-- The token variants the linter inspects (models `sqlparser::tokenizer::Token`);
all variants the linter ignores are collapsed into `Other`. -/
inductive Token where
  | Word (w : Word)
  | LParen
  | RParen
  | SemiColon
  | Char (c : Char)
  | Whitespace (s : String)
  | Other
deriving DecidableEq, Repr

/-- Models `sqlparser::tokenizer::TokenWithSpan`. -/
structure TokenWithSpan where
  token : Token
  span : Span
deriving DecidableEq, Repr

instance : Inhabited TokenWithSpan := ⟨⟨Token.Other, ⟨⟨0, 0⟩, ⟨0, 0⟩⟩⟩⟩

/-- Conversion of a tokenizer span (one-based) to a diagnostic range
(zero-based), as done inline wherever the linter builds a range from a span. -/
def tokenSpanRange (sp : Span) : Range :=
  { start := { line := sp.start.line - 1, character := sp.start.column - 1 },
    stop := { line := sp.stop.line - 1, character := sp.stop.column - 1 } }

/-- Zero-width range at the end location of a span, the shape the linter
builds for missing-semicolon and missing-comma diagnostics. -/
def zeroWidthAtStop (sp : Span) : Range :=
  { start := { line := sp.stop.line - 1, character := sp.stop.column - 1 },
    stop := { line := sp.stop.line - 1, character := sp.stop.column - 1 } }

/-! ### Text helpers: Rust line splitting, whitespace, UTF-8 byte work -/

/-- UTF-8 byte length of a character list (models `str::len` on a line). -/
def utf8Len (l : List Char) : Nat := (l.map Char.utf8Size).sum

/-- Split a character list at newline characters; every `'\n'` terminates a
piece. An empty input yields one empty piece. -/
def splitNewlines : List Char → List (List Char)
  | [] => [[]]
  | '\n' :: rest => [] :: splitNewlines rest
  | c :: rest =>
      match splitNewlines rest with
      | [] => [[c]]
      | l :: ls => (c :: l) :: ls

/-- Drop one trailing `'\r'`, as `str::lines` does per line. -/
def stripCR (l : List Char) : List Char :=
  match l.getLast? with
  | some '\r' => l.dropLast
  | _ => l

/-- Models `str::lines()`: split on `'\n'`, drop a final empty piece (a final
line terminator produces no extra line), and strip one trailing `'\r'` per
line. -/
def rustLines (text : String) : List (List Char) :=
  let parts := splitNewlines text.data
  let parts := if parts.getLast? = some [] then parts.dropLast else parts
  parts.map stripCR

/-- Models Rust `str::to_uppercase` as an ASCII character map (the embedding's
uppercase model; it agrees with the source on the ASCII keyword sets every
rule compares against). -/
def rustToUppercase (s : String) : String := String.mk (s.data.map Char.toUpper)

/-- Models Rust `char::is_whitespace` (the Unicode White_Space property). -/
def rustIsWhitespace (c : Char) : Bool :=
  decide ((9 ≤ c.toNat ∧ c.toNat ≤ 13) ∨ c.toNat = 32 ∨ c.toNat = 0x85 ∨
    c.toNat = 0xA0 ∨ c.toNat = 0x1680 ∨ (0x2000 ≤ c.toNat ∧ c.toNat ≤ 0x200A) ∨
    c.toNat = 0x2028 ∨ c.toNat = 0x2029 ∨ c.toNat = 0x202F ∨ c.toNat = 0x205F ∨
    c.toNat = 0x3000)

/-- Models `str::trim_start`. -/
def rustTrimStart (l : List Char) : List Char := l.dropWhile rustIsWhitespace

/-- Models `str::trim_end`. -/
def rustTrimEnd (l : List Char) : List Char :=
  (l.reverse.dropWhile rustIsWhitespace).reverse

/-- Models `str::trim`. -/
def rustTrim (l : List Char) : List Char := rustTrimStart (rustTrimEnd l)

/-- Models the Rust byte slice `&line[i..]`: `some` of the suffix when byte
index `i` falls on a UTF-8 character boundary within the string, `none`
(a panic) when it falls strictly inside a multi-byte character or past the
end. -/
def sliceFromBytes : List Char → Nat → Option (List Char)
  | l, 0 => some l
  | [], _ + 1 => none
  | c :: rest, i + 1 =>
      if c.utf8Size ≤ i + 1 then sliceFromBytes rest (i + 1 - c.utf8Size) else none

/-! ### check_parentheses -/

/-- Running state of `check_parentheses`: the signed balance and the index of
the first token at which the balance went negative. -/
structure ParenScan where
  balance : Int
  first_negative_idx : Option Nat
deriving DecidableEq, Repr

/-- One loop iteration of `check_parentheses` over an enumerated token. -/
def parenStep (s : ParenScan) (it : Nat × TokenWithSpan) : ParenScan :=
  match it.2.token with
  | Token.LParen => { s with balance := s.balance + 1 }
  | Token.RParen =>
      let b := s.balance - 1
      if b < 0 ∧ s.first_negative_idx = none then
        { balance := b, first_negative_idx := some it.1 }
      else { s with balance := b }
  | _ => s

/-- The full scan of `check_parentheses` over the token stream. -/
def parenScanResult (tokens : List TokenWithSpan) : ParenScan :=
  tokens.enum.foldl parenStep { balance := 0, first_negative_idx := none }

/-- Models `check_parentheses` from linter.rs. -/
def check_parentheses (tokens : List TokenWithSpan) : List Diagnostic :=
  let r := parenScanResult tokens
  if r.balance ≠ 0 then
    if r.balance > 0 then
      [{ range := Range.zero,
         severity := some DiagnosticSeverity.ERROR,
         code := none, source := none,
         message := "Unbalanced parentheses: " ++ toString r.balance ++ " unclosed '(" }]
    else
      match r.first_negative_idx with
      | some idx =>
          [{ range := tokenSpanRange (tokens.getD idx default).span,
             severity := some DiagnosticSeverity.ERROR,
             code := none, source := none,
             message := "Unbalanced parentheses: extra ')'" }]
      | none => []
  else []

/-! ### check_keyword_casing -/

/-- The fixed recognized-keyword set of `is_keyword` in linter.rs. -/
def recognized_keywords : List String :=
  ["SELECT", "FROM", "WHERE", "GROUP", "BY", "HAVING", "ORDER", "LIMIT",
   "JOIN", "LEFT", "RIGHT", "INNER", "OUTER", "CROSS", "ON", "AS",
   "AND", "OR", "NOT", "IN", "EXISTS", "BETWEEN", "LIKE", "CASE", "WHEN",
   "THEN", "ELSE", "END", "INSERT", "INTO", "VALUES", "UPDATE", "DELETE",
   "CREATE", "TABLE", "DROP", "ALTER"]

/-- Models `is_keyword` from linter.rs: quoted words are never keywords;
otherwise membership of the uppercased text in the fixed set. -/
def is_keyword (w : Word) : Bool :=
  if w.quote_style.isSome then false
  else decide (rustToUppercase w.value ∈ recognized_keywords)

/-- The per-token diagnostic of `check_keyword_casing`: at most one warning
per token, for an unquoted keyword whose text differs from its uppercase. -/
def keywordCasingDiag (t : TokenWithSpan) : Option Diagnostic :=
  match t.token with
  | Token.Word w =>
      if is_keyword w && w.value != rustToUppercase w.value then
        some { range := tokenSpanRange t.span,
               severity := some DiagnosticSeverity.WARNING,
               code := some "keyword-casing",
               source := some "hql-ls",
               message := "Keyword '" ++ w.value ++ "' should be uppercase" }
      else none
  | _ => none

/-- Models `check_keyword_casing` from linter.rs. -/
def check_keyword_casing : List TokenWithSpan → List Diagnostic
  | [] => []
  | t :: rest =>
      match keywordCasingDiag t with
      | some d => d :: check_keyword_casing rest
      | none => check_keyword_casing rest

/-! ### check_semicolons: the statement-boundary engine -/

/-- The fixed statement-starter set of `check_semicolons`. -/
def statement_starters : List String :=
  ["SELECT", "INSERT", "UPDATE", "DELETE", "CREATE", "DROP", "ALTER",
   "TRUNCATE", "WITH", "MERGE", "SHOW", "DESCRIBE", "EXPLAIN", "SET", "USE"]

/-- Models `is_significant` from linter.rs: every token except whitespace. -/
def is_significant : Token → Bool
  | Token.Whitespace _ => false
  | _ => true

/-- The semicolon test used on the previous significant token:
`matches!(t, Token::SemiColon) || matches!(t, Token::Char(';'))`. -/
def isSemicolonTok : Token → Bool
  | Token.SemiColon => true
  | Token.Char c => c = ';'
  | _ => false

/-- The `is_continuation` computation of `check_semicolons`: a SELECT starter
continues an open WITH, INSERT, CREATE or EXPLAIN statement. -/
def is_continuation_check (current : Option String) (upper : String) : Bool :=
  match current with
  | some cur =>
      upper == "SELECT" &&
        (cur == "WITH" || cur == "INSERT" || cur == "CREATE" || cur == "EXPLAIN")
  | none => false

/-- The Information diagnostic `check_semicolons` pushes: zero-width range at
the end of the given span. -/
def missingSemiDiag (sp : Span) (msg : String) : Diagnostic :=
  { range := zeroWidthAtStop sp,
    severity := some DiagnosticSeverity.INFORMATION,
    code := some "missing-semicolon",
    source := some "hql-ls",
    message := msg }

/-- The mutable state of the `check_semicolons` loop. -/
structure SemiState where
  diagnostics : List Diagnostic
  last_significant_token_idx : Option Nat
  paren_balance : Int
  current_statement_keyword : Option String
deriving DecidableEq, Repr

/-- Initial `check_semicolons` state. -/
def initSemi : SemiState := ⟨[], none, 0, none⟩

/-- One loop iteration of `check_semicolons` over an enumerated token.
The whole token list is passed along because the loop body indexes
`tokens[prev_idx]` for the previous significant token. -/
def semiStep (tokens : List TokenWithSpan) (s : SemiState)
    (it : Nat × TokenWithSpan) : SemiState :=
  let s1 :=
    match it.2.token with
    | Token.LParen => { s with paren_balance := s.paren_balance + 1 }
    | Token.RParen =>
        if s.paren_balance > 0 then { s with paren_balance := s.paren_balance - 1 }
        else s
    | Token.SemiColon =>
        if s.paren_balance = 0 then { s with current_statement_keyword := none }
        else s
    | Token.Char c =>
        if c = ';' then
          if s.paren_balance = 0 then { s with current_statement_keyword := none }
          else s
        else s
    | Token.Word w =>
        let upper := rustToUppercase w.value
        if s.paren_balance = 0 ∧ upper ∈ statement_starters then
          if is_continuation_check s.current_statement_keyword upper then s
          else
            let s2 :=
              match s.last_significant_token_idx with
              | some prev_idx =>
                  if isSemicolonTok (tokens.getD prev_idx default).token then s
                  else
                    { s with diagnostics := s.diagnostics ++
                        [missingSemiDiag (tokens.getD prev_idx default).span
                          "Missing semicolon at end of statement"] }
              | none => s
            { s2 with current_statement_keyword := some upper }
        else s
    | _ => s
  if is_significant it.2.token then
    { s1 with last_significant_token_idx := some it.1 }
  else s1

/-- The full loop of `check_semicolons` over the enumerated token stream. -/
def semiScan (tokens : List TokenWithSpan) : SemiState :=
  tokens.enum.foldl (semiStep tokens) initSemi

/-- The end-of-stream check of `check_semicolons`. -/
def semiEofDiags (tokens : List TokenWithSpan) (s : SemiState) : List Diagnostic :=
  if s.paren_balance = 0 ∧ s.current_statement_keyword.isSome then
    match s.last_significant_token_idx with
    | some last_idx =>
        if isSemicolonTok (tokens.getD last_idx default).token then []
        else
          [missingSemiDiag (tokens.getD last_idx default).span
            "Missing semicolon at end of file"]
    | none => []
  else []

/-- Models `check_semicolons` from linter.rs: the loop followed by the
end-of-stream check. -/
def check_semicolons (tokens : List TokenWithSpan) : List Diagnostic :=
  let fin := semiScan tokens
  fin.diagnostics ++ semiEofDiags tokens fin

/-! ### check_hive_variables -/

/-- The fixed valid-namespace set of `check_hive_variables`. -/
def valid_namespaces : List String :=
  ["hiveconf", "hivevar", "env", "system", "define"]

/-- Split a character list at the first closing brace: `some (before, after)`
when a brace exists, `none` otherwise. -/
def splitAtBrace : List Char → Option (List Char × List Char)
  | [] => none
  | c :: rest =>
      if c = '\x7d' then some ([], rest)
      else
        match splitAtBrace rest with
        | some (a, b) => some (c :: a, b)
        | none => none

theorem splitAtBrace_length :
    ∀ (l a b : List Char), splitAtBrace l = some (a, b) →
      a.length + b.length + 1 = l.length := by
  intro l
  induction l with
  | nil => intro a b h; simp [splitAtBrace] at h
  | cons c rest ih =>
      intro a b h
      simp only [splitAtBrace] at h
      by_cases hc : c = '\x7d'
      · simp [hc] at h
        obtain ⟨ha, hb⟩ := h
        subst ha; subst hb
        simp
      · simp only [if_neg hc] at h
        match hs : splitAtBrace rest with
        | some (a', b') =>
            rw [hs] at h
            simp at h
            obtain ⟨ha, hb⟩ := h
            subst ha; subst hb
            have := ih a' b' hs
            simp [List.length_cons]
            omega
        | none => rw [hs] at h; simp at h

/-- Models one `captures_iter` pass of the regex `\$\{([^}]*)\}` over a line:
returns the byte offset of each non-overlapping match together with the
captured inner character list, scanning left to right. -/
def hiveScan : List Char → Nat → List (Nat × List Char)
  | [], _ => []
  | '$' :: '\x7b' :: rest, p =>
      match h : splitAtBrace rest with
      | some (inner, rem) => (p, inner) :: hiveScan rem (p + 2 + utf8Len inner + 1)
      | none => []
  | c :: rest, p => hiveScan rest (p + c.utf8Size)
termination_by l _ => l.length
decreasing_by
  · have := splitAtBrace_length rest inner rem h
    simp [List.length_cons]
    omega
  · simp [List.length_cons]

/-- Split at the first colon, as `splitn(2, ':')` does (only called on
content known to contain a colon). -/
def splitFirstColon : List Char → List Char × List Char
  | [] => ([], [])
  | ':' :: rest => ([], rest)
  | c :: rest =>
      let p := splitFirstColon rest
      (c :: p.1, p.2)

/-- The per-match classification of `check_hive_variables`: at most one
warning per `${...}` match, first applicable check wins. `lineIdx` is the
zero-based line number and `p` the byte offset of the match start. -/
def hiveVarDiag (lineIdx : Nat) (p : Nat) (inner : List Char) : Option Diagnostic :=
  let range : Range :=
    { start := { line := lineIdx, character := p },
      stop := { line := lineIdx, character := p + 2 + utf8Len inner + 1 } }
  if (rustTrim inner).isEmpty then
    some { range := range, severity := some DiagnosticSeverity.WARNING,
           code := none, source := some "hql-ls",
           message := "Empty Hive variable" }
  else if ¬ (inner.contains ':') then
    some { range := range, severity := some DiagnosticSeverity.WARNING,
           code := none, source := some "hql-ls",
           message := "Invalid Hive variable: missing colon (expected $\x7bnamespace:name\x7d)" }
  else
    let parts := splitFirstColon inner
    let ns := String.mk parts.1
    let nm := parts.2
    if ¬ (valid_namespaces.contains ns) then
      some { range := range, severity := some DiagnosticSeverity.WARNING,
             code := none, source := some "hql-ls",
             message := "Invalid namespace '" ++ ns ++
               "'. Expected: [\"hiveconf\", \"hivevar\", \"env\", \"system\", \"define\"]" }
    else if (rustTrim nm).isEmpty then
      some { range := range, severity := some DiagnosticSeverity.WARNING,
             code := none, source := some "hql-ls",
             message := "Variable name is empty" }
    else none

/-- Models `check_hive_variables` from linter.rs: per line, classify every
regex match of `${...}`. -/
def check_hive_variables (text : String) : List Diagnostic :=
  (rustLines text).enum.foldr
    (fun il acc =>
      ((hiveScan il.2 0).filterMap (fun pi => hiveVarDiag il.1 pi.1 pi.2)) ++ acc)
    []

/-! ### check_trailing_whitespace -/

/-- Models `check_trailing_whitespace` from linter.rs. -/
def check_trailing_whitespace (text : String) : List Diagnostic :=
  (rustLines text).enum.foldr
    (fun il acc =>
      (if il.2.getLast? = some ' ' ∨ il.2.getLast? = some '\t' then
        [{ range := { start := { line := il.1, character := utf8Len (rustTrimEnd il.2) },
                      stop := { line := il.1, character := utf8Len il.2 } },
           severity := some DiagnosticSeverity.HINT,
           code := some "trailing-whitespace",
           source := some "hql-ls",
           message := "Trailing whitespace" }]
      else []) ++ acc)
    []

/-! ### check_missing_comma -/

/-- The fixed clause-starter set of `check_missing_comma`. -/
def clause_starters : List String :=
  ["FROM", "WHERE", "GROUP", "ORDER", "HAVING", "LIMIT", "OFFSET", "UNION",
   "LATERAL", "DISTINCT",
   "JOIN", "INNER", "LEFT", "RIGHT", "FULL", "CROSS", "ON", "AS", "USING",
   "WINDOW",
   "AND", "OR", "XOR", "CASE", "WHEN", "THEN", "ELSE", "END", "IS", "NOT",
   "IN", "BETWEEN", "LIKE", "RLIKE", "REGEXP",
   "OVER", "PARTITION", "BY", "ROWS", "RANGE", "UNBOUNDED", "PRECEDING",
   "FOLLOWING", "CURRENT", "ROW"]

/-- The look-ahead of `check_missing_comma`: the first following token that is
not whitespace, `none` when the stream ends first. -/
def firstNonWs : List TokenWithSpan → Option TokenWithSpan
  | [] => none
  | t :: rest =>
      match t.token with
      | Token.Whitespace _ => firstNonWs rest
      | _ => some t

/-- The comma probe of `check_missing_comma`: fetch the line of `t1`'s end
(`lines().nth(..).unwrap_or("")`), and when the byte index
`t1.span.stop.column - 1` is inside the line, slice the line there
(`none` models the panic on a non-boundary index) and test whether the
remainder starts, after `trim_start`, with a comma. Outside the line the
probe is `some false` without slicing. -/
def commaProbe (text : String) (t1 : TokenWithSpan) : Option Bool :=
  let t1_end_line_text := (rustLines text).getD (t1.span.stop.line - 1) []
  let slice_start := t1.span.stop.column - 1
  if slice_start < utf8Len t1_end_line_text then
    (sliceFromBytes t1_end_line_text slice_start).map
      (fun remaining => decide ((rustTrimStart remaining).head? = some ','))
  else some false

/-- The body of one `check_missing_comma` loop iteration for token `t1` with
the following tokens `rest`: `none` models a panic, `some ds` the (zero or
one) diagnostics this iteration pushes. -/
def cmcStep (text : String) (t1 : TokenWithSpan) (rest : List TokenWithSpan) :
    Option (List Diagnostic) :=
  match t1.token with
  | Token.Word w1 =>
      match firstNonWs rest with
      | none => some []
      | some t2 =>
          match t2.token with
          | Token.Word w2 =>
              if t1.span.stop.line < t2.span.start.line then
                match commaProbe text t1 with
                | none => none
                | some has_comma_after_t1 =>
                    if has_comma_after_t1 then some []
                    else
                      let u1 := rustToUppercase w1.value
                      let u2 := rustToUppercase w2.value
                      if u2 ∈ clause_starters then some []
                      else if u1 ∈ clause_starters ∨ u1 = "SELECT" then some []
                      else
                        some [{ range := zeroWidthAtStop t1.span,
                                severity := some DiagnosticSeverity.WARNING,
                                code := some "missing-comma",
                                source := some "hql-ls",
                                message := "Possible missing comma between columns in SELECT list" }]
              else some []
          | _ => some []
  | _ => some []

/-- The `check_missing_comma` loop: iterate over every index, concatenating
per-iteration diagnostics; a panic anywhere aborts the whole run. -/
def cmcGo (text : String) : List TokenWithSpan → Option (List Diagnostic)
  | [] => some []
  | t :: rest => do
      let d ← cmcStep text t rest
      let ds ← cmcGo text rest
      pure (d ++ ds)

/-- Models `check_missing_comma` from linter.rs; `none` models a panic. -/
def check_missing_comma (tokens : List TokenWithSpan) (text : String) :
    Option (List Diagnostic) :=
  cmcGo text tokens

/-! ### The aggregator `lint` -/

/-- Models `LintingRules` from config.rs. -/
structure LintingRules where
  keyword_casing : Bool
  semicolon : Bool
  string_literal : Bool
  parentheses : Bool
  trailing_whitespace : Bool
  missing_comma : Bool
  hive_variable : Bool
deriving DecidableEq, Repr

/-- Models `LintingConfig` from config.rs. -/
structure LintingConfig where
  enabled : Bool
  severity : String
  max_file_size : Nat
  rules : LintingRules
deriving DecidableEq, Repr

/-- The Error diagnostic `lint` pushes when tokenization fails. -/
def tokenizerErrDiag (msg : String) : Diagnostic :=
  { range := Range.zero,
    severity := some DiagnosticSeverity.ERROR,
    code := none,
    source := some "hql-ls",
    message := msg }

/-- Models `lint` from linter.rs. The external tokenizer
(`Tokenizer::new(&HiveDialect {}, text).tokenize_with_location()`) is passed
in as a function argument, per its black-box contract; `none` models a panic
propagating out of `check_missing_comma`. -/
def lint (tokenize : String → Except String (List TokenWithSpan))
    (text : String) (config : LintingConfig) : Option (List Diagnostic) :=
  if ¬ config.enabled then some []
  else if config.max_file_size < utf8Len text.data then some []
  else
    let d0 :=
      (if config.rules.trailing_whitespace then check_trailing_whitespace text else []) ++
      (if config.rules.hive_variable then check_hive_variables text else [])
    match tokenize text with
    | Except.ok tokens =>
        let d3 := d0 ++
          (if config.rules.keyword_casing then check_keyword_casing tokens else []) ++
          (if config.rules.semicolon then check_semicolons tokens else []) ++
          (if config.rules.parentheses then check_parentheses tokens else [])
        if config.rules.missing_comma then
          match check_missing_comma tokens text with
          | some d4 => some (d3 ++ d4)
          | none => none
        else some d3
    | Except.error e =>
        some (d0 ++ (if config.rules.string_literal then [tokenizerErrDiag e] else []))

/-! ## Theorems -/

/-- C4: for every tokenizer, input text and configuration, if linting is
globally disabled (`enabled == false`) or the text's byte length exceeds
`max_file_size`, `lint` returns the empty diagnostic list with no partial
diagnostics from any rule. -/
theorem lint_disabled_or_oversize_empty
    (tokenize : String → Except String (List TokenWithSpan))
    (text : String) (config : LintingConfig)
    (h : config.enabled = false ∨ config.max_file_size < utf8Len text.data) :
    lint tokenize text config = some [] := by
  unfold lint
  rcases h with h | h
  · simp [h]
  · by_cases he : config.enabled = true <;> simp [he, h]

theorem lint_disabled_or_oversize_empty_witness :
    lint (fun _ => Except.ok [])
      "SELECT 1"
      { enabled := false, severity := "Warning", max_file_size := 1048576,
        rules := ⟨true, true, true, true, true, true, true⟩ } = some [] :=
  lint_disabled_or_oversize_empty _ _ _ (Or.inl rfl)

/-- C5: on every input whose tokenization fails, `lint` emits no diagnostics
from any token-based rule; the text-based rules still contribute, and then
exactly one Error diagnostic carrying the tokenizer's own message at the
default (zero) range is appended when the string-literal toggle is on, and
nothing is appended when it is off. -/
theorem lint_tokenizer_failure_spec
    (tokenize : String → Except String (List TokenWithSpan))
    (text : String) (config : LintingConfig) (e : String)
    (henabled : config.enabled = true)
    (hsize : ¬ config.max_file_size < utf8Len text.data)
    (herr : tokenize text = Except.error e) :
    lint tokenize text config =
      some ((if config.rules.trailing_whitespace then check_trailing_whitespace text else []) ++
            (if config.rules.hive_variable then check_hive_variables text else []) ++
            (if config.rules.string_literal then
              [{ range := Range.zero,
                 severity := some DiagnosticSeverity.ERROR,
                 code := none,
                 source := some "hql-ls",
                 message := e }]
             else [])) := by
  unfold lint
  simp [henabled, hsize, herr, tokenizerErrDiag, List.append_assoc]

theorem lint_tokenizer_failure_spec_witness :
    lint (fun _ => Except.error "Unterminated string literal")
      "SELECT 'x"
      { enabled := true, severity := "Warning", max_file_size := 1048576,
        rules := ⟨true, true, true, true, true, true, true⟩ } =
      some ((if true then check_trailing_whitespace "SELECT 'x" else []) ++
            (if true then check_hive_variables "SELECT 'x" else []) ++
            (if true then
              [{ range := Range.zero,
                 severity := some DiagnosticSeverity.ERROR,
                 code := none,
                 source := some "hql-ls",
                 message := "Unterminated string literal" }]
             else [])) :=
  lint_tokenizer_failure_spec _ _ _ _ rfl (by decide) rfl

/-! ### C3: parenthesis balance -/

/-- Fold invariant of the `check_parentheses` scan: while no negative point
has been recorded the balance is non-negative, and a recorded index always
designates a `RightParen` of the stream. -/
theorem parenStep_invariant (tokens : List TokenWithSpan)
    (s : ParenScan) (q : Nat × TokenWithSpan)
    (hq : tokens.getD q.1 default = q.2)
    (h1 : s.first_negative_idx = none → 0 ≤ s.balance)
    (h2 : ∀ k, s.first_negative_idx = some k →
      (tokens.getD k default).token = Token.RParen) :
    ((parenStep s q).first_negative_idx = none → 0 ≤ (parenStep s q).balance) ∧
    (∀ k, (parenStep s q).first_negative_idx = some k →
      (tokens.getD k default).token = Token.RParen) := by
  cases ht : q.2.token <;> simp only [parenStep, ht]
  case LParen =>
    refine ⟨fun hn => ?_, fun k hk => h2 k hk⟩
    have := h1 hn
    show 0 ≤ s.balance + 1
    omega
  case RParen =>
    constructor
    · intro hn
      split at hn
      · exact Option.noConfusion hn
      · rename_i hcond
        rw [if_neg hcond]
        have hfn : s.first_negative_idx = none := hn
        have := h1 hfn
        show 0 ≤ s.balance - 1
        rcases not_and_or.mp hcond with hb | hi
        · omega
        · exact absurd hfn hi
    · intro k hk
      split at hk
      · have hk' : some q.1 = some k := hk
        rw [Option.some_inj] at hk'
        subst hk'
        rw [hq, ht]
      · have hk' : s.first_negative_idx = some k := hk
        exact h2 k hk'
  all_goals exact ⟨h1, h2⟩

theorem parenScan_invariant (tokens : List TokenWithSpan) :
    ∀ (l : List (Nat × TokenWithSpan)) (s : ParenScan),
      (∀ q ∈ l, tokens.getD q.1 default = q.2) →
      (s.first_negative_idx = none → 0 ≤ s.balance) →
      (∀ k, s.first_negative_idx = some k →
        (tokens.getD k default).token = Token.RParen) →
      ((l.foldl parenStep s).first_negative_idx = none →
        0 ≤ (l.foldl parenStep s).balance) ∧
      (∀ k, (l.foldl parenStep s).first_negative_idx = some k →
        (tokens.getD k default).token = Token.RParen) := by
  intro l
  induction l with
  | nil => intro s _ h1 h2; exact ⟨h1, h2⟩
  | cons q rest ih =>
      intro s hmem h1 h2
      have hq : tokens.getD q.1 default = q.2 := hmem q (List.mem_cons_self q rest)
      have hmem' : ∀ p ∈ rest, tokens.getD p.1 default = p.2 :=
        fun p hp => hmem p (List.mem_cons_of_mem q hp)
      rw [List.foldl_cons]
      obtain ⟨g1, g2⟩ := parenStep_invariant tokens s q hq h1 h2
      exact ih (parenStep s q) hmem' g1 g2

/-- C3 counterexample: on the one-token stream `[ ( ]` the code's message is
`Unbalanced parentheses: 1 unclosed '(` — without the closing apostrophe the
claim states after the parenthesis. -/
theorem check_parentheses_message_counterexample :
    (check_parentheses [⟨Token.LParen, ⟨⟨1, 1⟩, ⟨1, 2⟩⟩⟩]).map Diagnostic.message =
      ["Unbalanced parentheses: 1 unclosed '("] ∧
    "Unbalanced parentheses: 1 unclosed '(" ≠
      "Unbalanced parentheses: 1 unclosed '('" := by
  constructor
  · rfl
  · decide

/-- C3 (amended): for every token stream, `check_parentheses` computes the
final `LeftParen`/`RightParen` balance `n` and: if `n > 0` it emits one Error
with message `Unbalanced parentheses: <n> unclosed '(` (no closing apostrophe
after the parenthesis) positioned at the document start (zero range); if
`n < 0` it emits one Error `Unbalanced parentheses: extra ')'` positioned at
the first `RightParen` token at which the running balance went negative; if
`n == 0` it emits no diagnostic, regardless of intermediate excursions of the
running balance. -/
theorem check_parentheses_spec (tokens : List TokenWithSpan) :
    (0 < (parenScanResult tokens).balance →
      check_parentheses tokens =
        [{ range := Range.zero,
           severity := some DiagnosticSeverity.ERROR,
           code := none, source := none,
           message := "Unbalanced parentheses: " ++
             toString (parenScanResult tokens).balance ++ " unclosed '(" }]) ∧
    ((parenScanResult tokens).balance < 0 →
      ∃ idx, (parenScanResult tokens).first_negative_idx = some idx ∧
        (tokens.getD idx default).token = Token.RParen ∧
        check_parentheses tokens =
          [{ range := tokenSpanRange (tokens.getD idx default).span,
             severity := some DiagnosticSeverity.ERROR,
             code := none, source := none,
             message := "Unbalanced parentheses: extra ')'" }]) ∧
    ((parenScanResult tokens).balance = 0 → check_parentheses tokens = []) := by
  have hinv := parenScan_invariant tokens tokens.enum
    { balance := 0, first_negative_idx := none }
    (by
      intro q hq
      have := List.mem_enum_iff_getElem?.mp hq
      rw [List.getD_eq_getElem?_getD, this]
      rfl)
    (fun _ => by norm_num)
    (fun k hk => by simp at hk)
  refine ⟨?_, ?_, ?_⟩
  · intro h
    unfold check_parentheses
    simp only []
    rw [if_pos (by omega : (parenScanResult tokens).balance ≠ 0),
        if_pos (by omega : (parenScanResult tokens).balance > 0)]
  · intro h
    have hne : (parenScanResult tokens).first_negative_idx ≠ none := by
      intro hn
      have h0 : 0 ≤ (parenScanResult tokens).balance := hinv.1 hn
      omega
    obtain ⟨idx, hidx⟩ := Option.ne_none_iff_exists'.mp hne
    refine ⟨idx, hidx, hinv.2 idx hidx, ?_⟩
    unfold check_parentheses
    simp only []
    rw [if_pos (by omega : (parenScanResult tokens).balance ≠ 0),
        if_neg (by omega : ¬ (parenScanResult tokens).balance > 0), hidx]
  · intro h
    unfold check_parentheses
    simp only []
    rw [if_neg (by omega : ¬ (parenScanResult tokens).balance ≠ 0)]

/-- A one-token stream holding a single left parenthesis. -/
def lparenOnly : List TokenWithSpan := [⟨Token.LParen, ⟨⟨1, 1⟩, ⟨1, 2⟩⟩⟩]

/-- A one-token stream holding a single right parenthesis. -/
def rparenOnly : List TokenWithSpan := [⟨Token.RParen, ⟨⟨1, 4⟩, ⟨1, 5⟩⟩⟩]

theorem check_parentheses_spec_witness :
    (0 < (parenScanResult lparenOnly).balance ∧
      check_parentheses lparenOnly =
        [{ range := Range.zero,
           severity := some DiagnosticSeverity.ERROR,
           code := none, source := none,
           message := "Unbalanced parentheses: " ++
             toString (parenScanResult lparenOnly).balance ++
             " unclosed '(" }]) ∧
    ((parenScanResult rparenOnly).balance < 0 ∧
      ∃ idx,
        (parenScanResult rparenOnly).first_negative_idx = some idx ∧
        (rparenOnly.getD idx default).token = Token.RParen ∧
        check_parentheses rparenOnly =
          [{ range := tokenSpanRange ((rparenOnly.getD idx default)).span,
             severity := some DiagnosticSeverity.ERROR,
             code := none, source := none,
             message := "Unbalanced parentheses: extra ')'" }]) :=
  ⟨⟨by decide, (check_parentheses_spec lparenOnly).1 (by decide)⟩,
   ⟨by decide, (check_parentheses_spec rparenOnly).2.1 (by decide)⟩⟩

/-! ### C10: the missing-comma byte slice can panic -/

/-- The token stream the external tokenizer produces for the text
`ééx\nb`: two unrecognized-character tokens, the word `x`, a newline, and
the word `b` (columns are one-based character counts). -/
def c10tokens : List TokenWithSpan :=
  [⟨Token.Char 'é', ⟨⟨1, 1⟩, ⟨1, 2⟩⟩⟩,
   ⟨Token.Char 'é', ⟨⟨1, 2⟩, ⟨1, 3⟩⟩⟩,
   ⟨Token.Word ⟨"x", none⟩, ⟨⟨1, 3⟩, ⟨1, 4⟩⟩⟩,
   ⟨Token.Whitespace "\n", ⟨⟨1, 4⟩, ⟨2, 1⟩⟩⟩,
   ⟨Token.Word ⟨"b", none⟩, ⟨⟨2, 1⟩, ⟨2, 2⟩⟩⟩]

/-- C10 fails on the code: on the text `ééx\nb` the word `x` ends at
character column 4, so the slice starts at byte index 3 of the line `ééx`;
that index is within bounds (the line is 5 bytes long) but falls strictly
inside the second two-byte character, so the byte slice panics and
`check_missing_comma` returns no diagnostic list at all. -/
theorem check_missing_comma_panics_on_multibyte :
    3 < utf8Len ("ééx".data) ∧
    sliceFromBytes ("ééx".data) 3 = none ∧
    check_missing_comma c10tokens "ééx\nb" = none := by
  refine ⟨by decide, by decide, ?_⟩
  decide

/-! ### C9: the statement scanner's paren depth is clamped at zero -/

/-- One `check_semicolons` step keeps the paren depth non-negative. -/
theorem semiStep_balance_nonneg (tokens : List TokenWithSpan)
    (s : SemiState) (it : Nat × TokenWithSpan)
    (h : 0 ≤ s.paren_balance) : 0 ≤ (semiStep tokens s it).paren_balance := by
  unfold semiStep
  have hout : ∀ s1 : SemiState, 0 ≤ s1.paren_balance →
      0 ≤ (if is_significant it.2.token = true then
            { s1 with last_significant_token_idx := some it.1 } else s1).paren_balance := by
    intro s1 h1
    split <;> exact h1
  apply hout
  cases ht : it.2.token <;> simp only [ht]
  -- Word
  · split
    · split
      · exact h
      · cases hl : s.last_significant_token_idx with
        | none => simp only [hl]; exact h
        | some prev_idx =>
            simp only [hl]
            split <;> exact h
    · exact h
  -- LParen
  · show 0 ≤ s.paren_balance + 1
    omega
  -- RParen
  · split
    · rename_i hgt
      show 0 ≤ s.paren_balance - 1
      omega
    · exact h
  -- SemiColon
  · split <;> exact h
  -- Char
  · split
    · split <;> exact h
    · exact h
  -- Whitespace
  · exact h
  -- Other
  · exact h

/-- The `check_semicolons` fold keeps the paren depth non-negative. -/
theorem semiFold_balance_nonneg (tokens : List TokenWithSpan) :
    ∀ (l : List (Nat × TokenWithSpan)) (s : SemiState),
      0 ≤ s.paren_balance → 0 ≤ (l.foldl (semiStep tokens) s).paren_balance := by
  intro l
  induction l with
  | nil => intro s h; exact h
  | cons q rest ih =>
      intro s h
      rw [List.foldl_cons]
      exact ih (semiStep tokens s q) (semiStep_balance_nonneg tokens s q h)

/-- C9: in the statement-boundary engine the paren depth counter is
non-negative after every prefix of the scan over any token stream, and a
`RightParen` seen at depth 0 leaves the depth at 0 (clamped) instead of
making it negative. -/
theorem semi_paren_depth_nonneg (tokens : List TokenWithSpan) :
    (∀ n : Nat,
      0 ≤ (((tokens.enum.take n).foldl (semiStep tokens) initSemi)).paren_balance) ∧
    (∀ (s : SemiState) (i : Nat) (sp : Span), s.paren_balance = 0 →
      (semiStep tokens s (i, ⟨Token.RParen, sp⟩)).paren_balance = 0) := by
  constructor
  · intro n
    exact semiFold_balance_nonneg tokens _ initSemi (by norm_num [initSemi])
  · intro s i sp h
    unfold semiStep
    simp only [is_significant]
    rw [if_neg (by omega : ¬ s.paren_balance > 0)]
    show s.paren_balance = 0
    exact h

theorem semi_paren_depth_nonneg_witness :
    0 ≤ ((([⟨Token.RParen, ⟨⟨1, 1⟩, ⟨1, 2⟩⟩⟩].enum.take 1).foldl
        (semiStep [⟨Token.RParen, ⟨⟨1, 1⟩, ⟨1, 2⟩⟩⟩]) initSemi)).paren_balance ∧
    (semiStep [⟨Token.RParen, ⟨⟨1, 1⟩, ⟨1, 2⟩⟩⟩] initSemi
      (0, ⟨Token.RParen, ⟨⟨1, 1⟩, ⟨1, 2⟩⟩⟩)).paren_balance = 0 :=
  ⟨(semi_paren_depth_nonneg [⟨Token.RParen, ⟨⟨1, 1⟩, ⟨1, 2⟩⟩⟩]).1 1,
   (semi_paren_depth_nonneg [⟨Token.RParen, ⟨⟨1, 1⟩, ⟨1, 2⟩⟩⟩]).2 initSemi 0
     ⟨⟨1, 1⟩, ⟨1, 2⟩⟩ rfl⟩

/-! ### C2: the end-of-stream check of check_semicolons -/

/-- C2: at end of the token stream, if the paren depth is 0, an open
statement is still recorded and the last significant token is not a
semicolon, `check_semicolons` appends exactly one Information diagnostic
`Missing semicolon at end of file` at a zero-width span at the end of that
last significant token; if the paren depth is non-zero at end of stream, no
end-of-stream diagnostic is appended. -/
theorem check_semicolons_eof_spec (tokens : List TokenWithSpan) :
    ((semiScan tokens).paren_balance = 0 →
      ∀ idx, (semiScan tokens).last_significant_token_idx = some idx →
      (semiScan tokens).current_statement_keyword.isSome = true →
      isSemicolonTok (tokens.getD idx default).token = false →
      check_semicolons tokens =
        (semiScan tokens).diagnostics ++
          [{ range := zeroWidthAtStop (tokens.getD idx default).span,
             severity := some DiagnosticSeverity.INFORMATION,
             code := some "missing-semicolon",
             source := some "hql-ls",
             message := "Missing semicolon at end of file" }]) ∧
    ((semiScan tokens).paren_balance ≠ 0 →
      check_semicolons tokens = (semiScan tokens).diagnostics) := by
  constructor
  · intro h0 idx hidx hsome hsemi
    show (semiScan tokens).diagnostics ++ semiEofDiags tokens (semiScan tokens) = _
    unfold semiEofDiags
    rw [if_pos ⟨h0, hsome⟩, hidx]
    simp only [hsemi, Bool.false_eq_true, if_false]
    rfl
  · intro hne
    show (semiScan tokens).diagnostics ++ semiEofDiags tokens (semiScan tokens) = _
    unfold semiEofDiags
    rw [if_neg (fun hand => hne hand.1)]
    simp

/-- A one-token stream holding a single unterminated `SELECT`. -/
def selectOnly : List TokenWithSpan :=
  [⟨Token.Word ⟨"SELECT", none⟩, ⟨⟨1, 1⟩, ⟨1, 7⟩⟩⟩]

theorem check_semicolons_eof_spec_witness :
    check_semicolons selectOnly =
      (semiScan selectOnly).diagnostics ++
        [{ range := zeroWidthAtStop ((selectOnly.getD 0 default)).span,
           severity := some DiagnosticSeverity.INFORMATION,
           code := some "missing-semicolon",
           source := some "hql-ls",
           message := "Missing semicolon at end of file" }] :=
  (check_semicolons_eof_spec selectOnly).1
    (by decide) 0 (by decide) (by decide) (by decide)

/-! ### C1: the statement-starter transition of check_semicolons -/

/-- C1: in the statement-boundary engine, when a `Word` token whose
uppercased text is in the statement-starter set is seen at paren depth 0:
if the open statement is one of WITH/INSERT/CREATE/EXPLAIN and the new
starter is SELECT, no diagnostic is emitted and the open statement is
unchanged; otherwise a new statement begins — the open statement becomes the
new starter's uppercased text, and exactly one Information diagnostic
`Missing semicolon at end of statement` is emitted at a zero-width span at
the end position of the last significant token precisely when such a token
exists and is not a semicolon. -/
theorem semi_statement_starter_spec (tokens : List TokenWithSpan)
    (s : SemiState) (i : Nat) (w : Word) (sp : Span)
    (hbal : s.paren_balance = 0)
    (hstart : rustToUppercase w.value ∈ statement_starters) :
    (∀ cur, s.current_statement_keyword = some cur →
      rustToUppercase w.value = "SELECT" →
      cur ∈ (["WITH", "INSERT", "CREATE", "EXPLAIN"] : List String) →
      (semiStep tokens s (i, ⟨Token.Word w, sp⟩)).diagnostics = s.diagnostics ∧
      (semiStep tokens s (i, ⟨Token.Word w, sp⟩)).current_statement_keyword =
        s.current_statement_keyword) ∧
    (is_continuation_check s.current_statement_keyword (rustToUppercase w.value) = false →
      (semiStep tokens s (i, ⟨Token.Word w, sp⟩)).current_statement_keyword =
        some (rustToUppercase w.value) ∧
      (∀ prev_idx, s.last_significant_token_idx = some prev_idx →
        isSemicolonTok (tokens.getD prev_idx default).token = false →
        (semiStep tokens s (i, ⟨Token.Word w, sp⟩)).diagnostics =
          s.diagnostics ++
            [{ range := zeroWidthAtStop (tokens.getD prev_idx default).span,
               severity := some DiagnosticSeverity.INFORMATION,
               code := some "missing-semicolon",
               source := some "hql-ls",
               message := "Missing semicolon at end of statement" }]) ∧
      (∀ prev_idx, s.last_significant_token_idx = some prev_idx →
        isSemicolonTok (tokens.getD prev_idx default).token = true →
        (semiStep tokens s (i, ⟨Token.Word w, sp⟩)).diagnostics = s.diagnostics) ∧
      (s.last_significant_token_idx = none →
        (semiStep tokens s (i, ⟨Token.Word w, sp⟩)).diagnostics = s.diagnostics)) := by
  constructor
  · intro cur hcur hsel hmem4
    have hcont : is_continuation_check s.current_statement_keyword
        (rustToUppercase w.value) = true := by
      rw [hcur, hsel]
      fin_cases hmem4 <;> decide
    constructor <;> simp [semiStep, is_significant, hbal, hstart, hcont]
  · intro hnc
    refine ⟨?_, ?_, ?_, ?_⟩
    · cases hl : s.last_significant_token_idx with
      | none => simp [semiStep, is_significant, hbal, hstart, hnc, hl]
      | some p =>
          by_cases hs : isSemicolonTok (tokens.getD p default).token <;>
            simp [semiStep, is_significant, hbal, hstart, hnc, hl, hs]
    · intro p hp hs
      rw [List.getD_eq_getElem?_getD] at hs
      simp [semiStep, is_significant, hbal, hstart, hnc, hp, hs, missingSemiDiag]
    · intro p hp hs
      rw [List.getD_eq_getElem?_getD] at hs
      simp [semiStep, is_significant, hbal, hstart, hnc, hp, hs]
    · intro hl
      simp [semiStep, is_significant, hbal, hstart, hnc, hl]

/-- A scanner state with an open WITH statement and a recorded last
significant token, as reached mid-scan of a `WITH ... SELECT` query. -/
def c1state : SemiState :=
  { diagnostics := [], last_significant_token_idx := some 0,
    paren_balance := 0, current_statement_keyword := some "WITH" }

/-- A scanner state with no open statement and a recorded last significant
token that is not a semicolon. -/
def c1state2 : SemiState :=
  { diagnostics := [], last_significant_token_idx := some 0,
    paren_balance := 0, current_statement_keyword := none }

/-- A one-token stream whose only token is the word `users`. -/
def c1tokens : List TokenWithSpan :=
  [⟨Token.Word ⟨"users", none⟩, ⟨⟨1, 10⟩, ⟨1, 15⟩⟩⟩]

theorem semi_statement_starter_spec_witness :
    ((semiStep c1tokens c1state
        (1, ⟨Token.Word ⟨"SELECT", none⟩, ⟨⟨2, 1⟩, ⟨2, 7⟩⟩⟩)).diagnostics =
          c1state.diagnostics ∧
      (semiStep c1tokens c1state
        (1, ⟨Token.Word ⟨"SELECT", none⟩, ⟨⟨2, 1⟩, ⟨2, 7⟩⟩⟩)).current_statement_keyword =
          c1state.current_statement_keyword) ∧
    (semiStep c1tokens c1state2
        (1, ⟨Token.Word ⟨"SELECT", none⟩, ⟨⟨2, 1⟩, ⟨2, 7⟩⟩⟩)).diagnostics =
      c1state2.diagnostics ++
        [{ range := zeroWidthAtStop ((c1tokens.getD 0 default)).span,
           severity := some DiagnosticSeverity.INFORMATION,
           code := some "missing-semicolon",
           source := some "hql-ls",
           message := "Missing semicolon at end of statement" }] :=
  ⟨(semi_statement_starter_spec c1tokens c1state 1 ⟨"SELECT", none⟩
      ⟨⟨2, 1⟩, ⟨2, 7⟩⟩ rfl (by decide)).1 "WITH" rfl (by decide) (by decide),
   ((semi_statement_starter_spec c1tokens c1state2 1 ⟨"SELECT", none⟩
      ⟨⟨2, 1⟩, ⟨2, 7⟩⟩ rfl (by decide)).2 (by decide)).2.1 0 rfl (by decide)⟩

/-! ### C6: keyword casing -/

/-- C6: a quoted `Word` token is never flagged by `check_keyword_casing`
regardless of its text; an unquoted `Word` token whose uppercased text is in
the recognized-keyword set and whose text differs from its own uppercase
yields exactly one Warning with code `keyword-casing` and message
`Keyword '<text>' should be uppercase` at the token's span converted from
one-based to zero-based coordinates. -/
theorem check_keyword_casing_spec (w : Word) (sp : Span) (ts : List TokenWithSpan) :
    (w.quote_style.isSome = true →
      check_keyword_casing (⟨Token.Word w, sp⟩ :: ts) = check_keyword_casing ts) ∧
    (w.quote_style = none →
      rustToUppercase w.value ∈ recognized_keywords →
      w.value ≠ rustToUppercase w.value →
      check_keyword_casing (⟨Token.Word w, sp⟩ :: ts) =
        { range := tokenSpanRange sp,
          severity := some DiagnosticSeverity.WARNING,
          code := some "keyword-casing",
          source := some "hql-ls",
          message := "Keyword '" ++ w.value ++ "' should be uppercase" } ::
        check_keyword_casing ts) := by
  constructor
  · intro hq
    have hk : is_keyword w = false := by
      unfold is_keyword
      rw [if_pos hq]
    simp [check_keyword_casing, keywordCasingDiag, hk]
  · intro hq hmem hne
    have hk : is_keyword w = true := by
      unfold is_keyword
      rw [hq]
      simpa using hmem
    simp [check_keyword_casing, keywordCasingDiag, hk, hne]

theorem check_keyword_casing_spec_witness :
    check_keyword_casing [⟨Token.Word ⟨"SELECT", some '"'⟩, ⟨⟨1, 1⟩, ⟨1, 7⟩⟩⟩] =
      check_keyword_casing [] ∧
    check_keyword_casing [⟨Token.Word ⟨"select", none⟩, ⟨⟨1, 1⟩, ⟨1, 7⟩⟩⟩] =
      { range := tokenSpanRange ⟨⟨1, 1⟩, ⟨1, 7⟩⟩,
        severity := some DiagnosticSeverity.WARNING,
        code := some "keyword-casing",
        source := some "hql-ls",
        message := "Keyword '" ++ "select" ++ "' should be uppercase" } ::
      check_keyword_casing [] :=
  ⟨(check_keyword_casing_spec ⟨"SELECT", some '"'⟩ ⟨⟨1, 1⟩, ⟨1, 7⟩⟩ []).1 rfl,
   (check_keyword_casing_spec ⟨"select", none⟩ ⟨⟨1, 1⟩, ⟨1, 7⟩⟩ []).2
     rfl (by decide) (by decide)⟩

/-! ### C7: the missing-comma heuristic -/

/-- C7: for an adjacent pair of `Word` tokens separated only by whitespace,
`check_missing_comma` contributes per leading token via `cmcStep`; the pair
is flagged only when the two words are on different lines, is skipped when
the first non-space character after the first word's end on that word's line
is a comma, or the second word's uppercase is a clause starter, or the first
word's uppercase is a clause starter or `SELECT`; otherwise it yields one
Warning `Possible missing comma between columns in SELECT list` at a
zero-width span at the end of the first word. -/
theorem check_missing_comma_word_pair_spec (text : String) (t1 t2 : TokenWithSpan)
    (w1 w2 : Word) (rest : List TokenWithSpan)
    (h1 : t1.token = Token.Word w1)
    (h2 : firstNonWs rest = some t2)
    (h3 : t2.token = Token.Word w2) :
    (check_missing_comma (t1 :: rest) text =
      Option.bind (cmcStep text t1 rest)
        (fun d => Option.bind (cmcGo text rest) (fun ds => some (d ++ ds)))) ∧
    (¬ t1.span.stop.line < t2.span.start.line → cmcStep text t1 rest = some []) ∧
    (t1.span.stop.line < t2.span.start.line →
      commaProbe text t1 = some true → cmcStep text t1 rest = some []) ∧
    (t1.span.stop.line < t2.span.start.line →
      commaProbe text t1 = some false →
      rustToUppercase w2.value ∈ clause_starters → cmcStep text t1 rest = some []) ∧
    (t1.span.stop.line < t2.span.start.line →
      commaProbe text t1 = some false →
      rustToUppercase w2.value ∉ clause_starters →
      (rustToUppercase w1.value ∈ clause_starters ∨ rustToUppercase w1.value = "SELECT") →
      cmcStep text t1 rest = some []) ∧
    (t1.span.stop.line < t2.span.start.line →
      commaProbe text t1 = some false →
      rustToUppercase w2.value ∉ clause_starters →
      rustToUppercase w1.value ∉ clause_starters →
      rustToUppercase w1.value ≠ "SELECT" →
      cmcStep text t1 rest = some
        [{ range := zeroWidthAtStop t1.span,
           severity := some DiagnosticSeverity.WARNING,
           code := some "missing-comma",
           source := some "hql-ls",
           message := "Possible missing comma between columns in SELECT list" }]) := by
  refine ⟨rfl, ?_, ?_, ?_, ?_, ?_⟩
  · intro hlt
    simp [cmcStep, h1, h2, h3, hlt]
  · intro hlt hcp
    simp [cmcStep, h1, h2, h3, hlt, hcp]
  · intro hlt hcp hm2
    simp [cmcStep, h1, h2, h3, hlt, hcp, hm2]
  · intro hlt hcp hm2 hm1
    rcases hm1 with hm1 | hm1 <;>
      simp [cmcStep, h1, h2, h3, hlt, hcp, hm2, hm1]
  · intro hlt hcp hm2 hm1 hsel
    simp [cmcStep, h1, h2, h3, hlt, hcp, hm2, hm1, hsel]

/-- The token stream of `SELECT\n  id\n  name\nFROM users`. -/
def c7tokens : List TokenWithSpan :=
  [⟨Token.Word ⟨"SELECT", none⟩, ⟨⟨1, 1⟩, ⟨1, 7⟩⟩⟩,
   ⟨Token.Whitespace "\n  ", ⟨⟨1, 7⟩, ⟨2, 3⟩⟩⟩,
   ⟨Token.Word ⟨"id", none⟩, ⟨⟨2, 3⟩, ⟨2, 5⟩⟩⟩,
   ⟨Token.Whitespace "\n  ", ⟨⟨2, 5⟩, ⟨3, 3⟩⟩⟩,
   ⟨Token.Word ⟨"name", none⟩, ⟨⟨3, 3⟩, ⟨3, 7⟩⟩⟩,
   ⟨Token.Whitespace "\n", ⟨⟨3, 7⟩, ⟨4, 1⟩⟩⟩,
   ⟨Token.Word ⟨"FROM", none⟩, ⟨⟨4, 1⟩, ⟨4, 5⟩⟩⟩,
   ⟨Token.Whitespace " ", ⟨⟨4, 5⟩, ⟨4, 6⟩⟩⟩,
   ⟨Token.Word ⟨"users", none⟩, ⟨⟨4, 6⟩, ⟨4, 11⟩⟩⟩]

theorem check_missing_comma_word_pair_spec_witness :
    cmcStep "SELECT\n  id\n  name\nFROM users"
        (c7tokens.getD 2 default) (c7tokens.drop 3) =
      some [{ range := zeroWidthAtStop ((c7tokens.getD 2 default)).span,
              severity := some DiagnosticSeverity.WARNING,
              code := some "missing-comma",
              source := some "hql-ls",
              message := "Possible missing comma between columns in SELECT list" }] :=
  (check_missing_comma_word_pair_spec "SELECT\n  id\n  name\nFROM users"
      (c7tokens.getD 2 default) (c7tokens.getD 4 default)
      ⟨"id", none⟩ ⟨"name", none⟩ (c7tokens.drop 3)
      (by decide) (by decide) (by decide)).2.2.2.2.2
    (by decide) (by decide) (by decide) (by decide) (by decide)

/-! ### C8: Hive variable validation -/

/-- C8: per `${...}` match, `check_hive_variables` emits at most one
diagnostic, chosen by the first applicable check in the fixed order: empty or
whitespace-only content; missing colon; invalid namespace; empty name; and a
valid namespace with a non-empty name yields no diagnostic. -/
theorem check_hive_variables_match_spec (text : String) (lineIdx p : Nat)
    (inner : List Char) :
    (check_hive_variables text =
      (rustLines text).enum.foldr
        (fun il acc =>
          ((hiveScan il.2 0).filterMap (fun pi => hiveVarDiag il.1 pi.1 pi.2)) ++ acc)
        []) ∧
    ((rustTrim inner).isEmpty = true →
      hiveVarDiag lineIdx p inner =
        some { range := { start := { line := lineIdx, character := p },
                          stop := { line := lineIdx, character := p + 2 + utf8Len inner + 1 } },
               severity := some DiagnosticSeverity.WARNING,
               code := none, source := some "hql-ls",
               message := "Empty Hive variable" }) ∧
    ((rustTrim inner).isEmpty = false → inner.contains ':' = false →
      hiveVarDiag lineIdx p inner =
        some { range := { start := { line := lineIdx, character := p },
                          stop := { line := lineIdx, character := p + 2 + utf8Len inner + 1 } },
               severity := some DiagnosticSeverity.WARNING,
               code := none, source := some "hql-ls",
               message := "Invalid Hive variable: missing colon (expected $\x7bnamespace:name\x7d)" }) ∧
    ((rustTrim inner).isEmpty = false → inner.contains ':' = true →
      valid_namespaces.contains (String.mk (splitFirstColon inner).1) = false →
      hiveVarDiag lineIdx p inner =
        some { range := { start := { line := lineIdx, character := p },
                          stop := { line := lineIdx, character := p + 2 + utf8Len inner + 1 } },
               severity := some DiagnosticSeverity.WARNING,
               code := none, source := some "hql-ls",
               message := "Invalid namespace '" ++ String.mk (splitFirstColon inner).1 ++
                 "'. Expected: [\"hiveconf\", \"hivevar\", \"env\", \"system\", \"define\"]" }) ∧
    ((rustTrim inner).isEmpty = false → inner.contains ':' = true →
      valid_namespaces.contains (String.mk (splitFirstColon inner).1) = true →
      (rustTrim (splitFirstColon inner).2).isEmpty = true →
      hiveVarDiag lineIdx p inner =
        some { range := { start := { line := lineIdx, character := p },
                          stop := { line := lineIdx, character := p + 2 + utf8Len inner + 1 } },
               severity := some DiagnosticSeverity.WARNING,
               code := none, source := some "hql-ls",
               message := "Variable name is empty" }) ∧
    ((rustTrim inner).isEmpty = false → inner.contains ':' = true →
      valid_namespaces.contains (String.mk (splitFirstColon inner).1) = true →
      (rustTrim (splitFirstColon inner).2).isEmpty = false →
      hiveVarDiag lineIdx p inner = none) := by
  refine ⟨rfl, ?_, ?_, ?_, ?_, ?_⟩
  · intro he
    simp at he
    simp [hiveVarDiag, he]
  · intro he hc
    simp at he hc
    simp [hiveVarDiag, he, hc]
  · intro he hc hns
    simp at he hc hns
    simp [hiveVarDiag, he, hc, hns]
  · intro he hc hns hnm
    simp at he hc hns hnm
    simp [hiveVarDiag, he, hc, hns, hnm]
  · intro he hc hns hnm
    simp at he hc hns hnm
    simp [hiveVarDiag, he, hc, hns, hnm]

theorem check_hive_variables_match_spec_witness :
    hiveVarDiag 0 7 ("".data) =
      some { range := { start := { line := 0, character := 7 },
                        stop := { line := 0, character := 7 + 2 + utf8Len ("".data) + 1 } },
             severity := some DiagnosticSeverity.WARNING,
             code := none, source := some "hql-ls",
             message := "Empty Hive variable" } ∧
    hiveVarDiag 0 7 ("invalid:var".data) =
      some { range := { start := { line := 0, character := 7 },
                        stop := { line := 0, character := 7 + 2 + utf8Len ("invalid:var".data) + 1 } },
             severity := some DiagnosticSeverity.WARNING,
             code := none, source := some "hql-ls",
             message := "Invalid namespace '" ++ String.mk (splitFirstColon ("invalid:var".data)).1 ++
               "'. Expected: [\"hiveconf\", \"hivevar\", \"env\", \"system\", \"define\"]" } ∧
    hiveVarDiag 0 7 ("hiveconf:my_var".data) = none :=
  ⟨(check_hive_variables_match_spec "" 0 7 ("".data)).2.1 (by decide),
   (check_hive_variables_match_spec "" 0 7 ("invalid:var".data)).2.2.2.1
     (by decide) (by decide) (by decide),
   (check_hive_variables_match_spec "" 0 7 ("hiveconf:my_var".data)).2.2.2.2.2
     (by decide) (by decide) (by decide) (by decide)⟩

end HQLint
